import Mathlib

/-!
Verification of `shop/cascade/plugin_base.py` (django-shop).

The file below is a shallow embedding of the plugin base classes of that
module: link resolution (`ShopLinkPluginBase.get_link`,
`ShopButtonPluginBase.get_identifier`), plugin registration
(`DialogFormPluginBase.register_plugin`), dialog-form construction and
rendering (`DialogFormPluginBase.__init__` / `render` /
`get_render_template`), and the catalog link form
(`CatalogLinkForm.clean_product` / `set_initial_product`).

Python dictionaries with a fixed key vocabulary are embedded as structures
of `Option` fields (`none` = key absent / value `None`); the Django ORM
(`get_model` + `Model.objects.get`) is embedded as a finite association
table keyed by the dotted model path and the primary key; raising an
exception before any state change is embedded as returning the state
unchanged together with the error message.
-/

set_option autoImplicit false

/-- A database object, as far as this module observes it: it has a primary
key and a `get_absolute_url` method (embedded as a precomputed string). -/
structure DbObject where
  pk : Nat
  get_absolute_url : String
  deriving DecidableEq, Repr

/-- The Django ORM as observed by this module: the composition of
`django.db.models.get_model(app_label, model_name)` with
`Model.objects.get(pk=...)`, embedded as a finite table keyed by the
dotted model path `"app_label.ModelName"` and the primary key. -/
structure Database where
  rows : List ((String × Nat) × DbObject)
  deriving DecidableEq, Repr

/-- `get_model(*model_path.split('.'))` followed by
`Model.objects.get(pk=pk)`, with `Model.DoesNotExist` embedded as `none`. -/
def Database.lookup (db : Database) (model_path : String) (pk : Nat) : Option DbObject :=
  (db.rows.find? (fun row => row.1.1 = model_path && row.1.2 = pk)).map (·.2)

/-- The value of `obj.glossary['link']`: a Python dict with keys
`'type'`, `'model'` and `'pk'`; `none` means the key is absent. -/
structure LinkDict where
  type : Option String
  model : Option String
  pk : Option Nat
  deriving DecidableEq, Repr

/-- `link = obj.glossary.get('link', {})` falls back to the empty dict. -/
def LinkDict.empty : LinkDict :=
  { type := none, model := none, pk := none }

/-- The per-plugin settings dictionary `obj.glossary`, restricted to the
keys this module reads: `'link'` and `'link_content'`. -/
structure Glossary where
  link : Option LinkDict
  link_content : Option String
  deriving DecidableEq, Repr

/-- A plugin instance as observed by `ShopLinkPluginBase.get_link`:
its glossary plus the memo attribute `_link_model`.  The outer `Option`
models `hasattr(obj, '_link_model')` (`none` = attribute absent); the
inner `Option DbObject` is the attribute's value, which the source sets
to the found model object or to `None`. -/
structure LinkObj where
  glossary : Glossary
  link_model : Option (Option DbObject)
  deriving DecidableEq, Repr

/-- `ShopLinkPluginBase.get_link(obj)`.  The Python method mutates `obj`
(it stores the memo `obj._link_model`), so the embedding returns the
result together with the updated instance. -/
def ShopLinkPluginBase.get_link (db : Database) (obj : LinkObj) :
    Option String × LinkObj :=
  let link := obj.glossary.link.getD LinkDict.empty
  if link.type = some "cmspage" then
    match link.model, link.pk with
    | some m, some pk =>
      let obj' :=
        match obj.link_model with
        | some _ => obj
        | none => { obj with link_model := some (db.lookup m pk) }
      match obj'.link_model with
      | some (some lm) => (some lm.get_absolute_url, obj')
      | _ => (none, obj')
    | _, _ => (none, obj)
  else
    (link.type, obj)

/-- `ShopButtonPluginBase.get_identifier(obj)`:
`mark_safe(obj.glossary.get('link_content', ''))` (`mark_safe` does not
change the characters of the string). -/
def ShopButtonPluginBase.get_identifier (obj : LinkObj) : String :=
  obj.glossary.link_content.getD ""

/-- The key-facing part of a form class, as this module observes it: its
`form_name` class attribute, under which the bound form is stored in the
template context. -/
structure FormClass where
  form_name : String
  deriving DecidableEq, Repr

/-- `django.utils.module_loading.import_by_path`, embedded as an
environment mapping dotted paths to form classes. -/
structure ImportEnv where
  import_by_path : String → FormClass

/-- The value of the `'initial'` entry of the form data: a Python dict
with the two keys this module writes (`plugin_id`, `plugin_order`;
`none` = key absent) plus all other entries, which the module never
touches. -/
structure InitDict where
  plugin_id : Option Nat
  plugin_order : Option Nat
  other : List (String × String)
  deriving DecidableEq, Repr

/-- The empty dict `{}` that `render` substitutes for a missing or
non-dict `'initial'` entry. -/
def InitDict.empty : InitDict :=
  { plugin_id := none, plugin_order := none, other := [] }

/-- A Python value that may sit under the `'initial'` key: either a dict
or anything else (`render` only cares whether `isinstance(..., dict)`). -/
inductive InitialVal where
  | dict (d : InitDict)
  | nondict
  deriving DecidableEq, Repr

/-- The dictionary returned by `get_form_data(request)`: an optional
`'instance'` entry (opaque to this module) and an optional `'initial'`
entry. -/
structure FormData where
  instance_arg : Option String
  initial : Option InitialVal
  deriving DecidableEq, Repr

/-- The request object, as far as `render` observes it: the counter
attribute `_plugin_order` (`none` models `hasattr` being false, so that
`getattr(request, '_plugin_order', 0)` falls back to `0`). -/
structure Request where
  plugin_order : Option Nat
  deriving DecidableEq, Repr

/-- A plugin class handed to `DialogFormPluginBase.register_plugin` and
to `DialogFormPluginBase.__init__`: its `__name__`, the result of
`issubclass(plugin, DialogFormPluginBase)`, its `form_class` attribute
(`none` models `getattr(cls, 'form_class', None)` returning `None`),
its `get_form_data` override and its `template_leaf_name` attribute. -/
structure PluginClass where
  name : String
  is_dialog_form_subclass : Bool
  form_class : Option String
  get_form_data : Request → FormData
  template_leaf_name : String

/-- `DialogFormPluginBase.get_form_class()`:
`getattr(cls, 'form_class', None)`. -/
def DialogFormPluginBase.get_form_class (p : PluginClass) : Option String :=
  p.form_class

/-- The message of the `ImproperlyConfigured` raised for a class that is
not a subclass of `DialogFormPluginBase`. -/
def DialogFormPluginBase.subclass_error_msg (p : PluginClass) : String :=
  "Can not register plugin class `" ++ p.name ++
    "`, since is does not inherit from `DialogFormPluginBase`."

/-- The message of the `ImproperlyConfigured` raised for a class without
a `form_class`. -/
def DialogFormPluginBase.form_class_error_msg (p : PluginClass) : String :=
  "Can not register plugin class `" ++ p.name ++
    "`, since is does not define a `form_class`."

/-- `DialogFormPluginBase.register_plugin(plugin)`.  The global CMS
plugin pool is threaded explicitly; raising `ImproperlyConfigured`
before `plugin_pool.register_plugin` is reached is embedded as returning
the pool unchanged together with the exception message. -/
def DialogFormPluginBase.register_plugin (pool : List PluginClass)
    (p : PluginClass) : List PluginClass × Option String :=
  if p.is_dialog_form_subclass = false then
    (pool, some (DialogFormPluginBase.subclass_error_msg p))
  else if DialogFormPluginBase.get_form_class p = none then
    (pool, some (DialogFormPluginBase.form_class_error_msg p))
  else
    (pool ++ [p], none)

/-- An initialized `DialogFormPluginBase` instance: `__init__` has stored
the imported form class on `self.FormClass`. -/
structure DialogPlugin where
  FormClass : FormClass
  get_form_data : Request → FormData
  template_leaf_name : String

/-- `DialogFormPluginBase.__init__`:
`self.FormClass = import_by_path(self.get_form_class())`.
`import_by_path` raises `ImproperlyConfigured` when handed `None`, so
construction only succeeds when `get_form_class()` returns a path. -/
def DialogFormPluginBase.init (env : ImportEnv) (cls : PluginClass) :
    Option DialogPlugin :=
  match DialogFormPluginBase.get_form_class cls with
  | some path =>
      some { FormClass := env.import_by_path path,
             get_form_data := cls.get_form_data,
             template_leaf_name := cls.template_leaf_name }
  | none => none

/-- A CMS plugin model instance as `render` observes it: its `id`. -/
structure PluginInstance where
  id : Nat
  deriving DecidableEq, Repr

/-- A bound form: the form class applied to its keyword arguments,
`self.FormClass(**form_data)`. -/
structure BoundForm where
  form_class : FormClass
  data : FormData
  deriving DecidableEq, Repr

/-- `bound_form.form_name`: the class attribute read through the
instance. -/
def BoundForm.form_name (bf : BoundForm) : String :=
  bf.form_class.form_name

/-- Assignment `d[k] = v` on a Python dict embedded as an association
list with unique keys: replace the entry in place, else append. -/
def dictSet {α : Type} : List (String × α) → String → α → List (String × α)
  | [], k, v => [(k, v)]
  | (k', v') :: t, k, v =>
      if k' = k then (k, v) :: t else (k', v') :: dictSet t k v

/-- Lookup `d.get(k)` on a Python dict embedded as an association list. -/
def dictGet {α : Type} : List (String × α) → String → Option α
  | [], _ => none
  | (k', v') :: t, k => if k' = k then some v' else dictGet t k

/-- The template context, restricted to what `render` touches: the
`'request'` entry and the bound-form entries keyed by form name. -/
structure Context where
  request : Request
  forms : List (String × BoundForm)
  deriving DecidableEq, Repr

/-- `CascadePluginBase.render` (the superclass chain ends in django CMS's
`CMSPluginBase.render`, which returns the context it was given). -/
def CascadePluginBase.render (ctx : Context) : Context :=
  ctx

/-- `DialogFormPluginBase.render(context, instance, placeholder)`.  The
`placeholder` argument is never read, so it is omitted.  The request held
in the context is mutated (`request._plugin_order`), hence the returned
context carries the updated request. -/
def DialogFormPluginBase.render (p : DialogPlugin) (ctx : Context)
    (inst : PluginInstance) : Context :=
  let request := ctx.request
  let form_data := p.get_form_data request
  let plugin_order := request.plugin_order.getD 0 + 1
  let request' := { request with plugin_order := some plugin_order }
  let initial0 : InitDict :=
    match form_data.initial with
    | some (InitialVal.dict d) => d
    | _ => InitDict.empty
  let initial' := { initial0 with
                    plugin_id := some inst.id,
                    plugin_order := some plugin_order }
  let form_data' := { form_data with initial := some (InitialVal.dict initial') }
  let bound_form : BoundForm := { form_class := p.FormClass, data := form_data' }
  CascadePluginBase.render
    { request := request',
      forms := dictSet ctx.forms bound_form.form_name bound_form }

/-- The template loader, embedded as the set of template names it can
find. -/
structure TemplateEnv where
  existing : List String
  deriving DecidableEq, Repr

/-- `django.template.loader.select_template(template_names)`: return the
first name that loads; raising `TemplateDoesNotExist` when none does is
embedded as `none`. -/
def select_template (tenv : TemplateEnv) : List String → Option String
  | [] => none
  | n :: rest => if n ∈ tenv.existing then some n else select_template tenv rest

/-- `DialogFormPluginBase.get_render_template(context, instance,
placeholder)` (none of the three arguments is read).  `app_label` stands
for `shop_settings.APP_LABEL`. -/
def DialogFormPluginBase.get_render_template (tenv : TemplateEnv)
    (app_label : String) (p : DialogPlugin) : Option String :=
  select_template tenv
    [app_label ++ "/checkout/" ++ p.template_leaf_name,
     "shop/checkout/" ++ p.template_leaf_name]

/-- The `'link_data'` dict built by `CatalogLinkForm.clean_product`. -/
structure LinkData where
  type : String
  model : String
  pk : Option Nat
  deriving DecidableEq, Repr

/-- `self.cleaned_data` of a `CatalogLinkForm`, restricted to the keys
`clean_product` touches: `link_type` (read with `.get`), `product` (the
selected product object or `None`) and `link_data` (absent until
`clean_product` writes it). -/
structure CleanedData where
  link_type : Option String
  product : Option DbObject
  link_data : Option LinkData
  deriving DecidableEq, Repr

/-- A `CatalogLinkForm` as `clean_product` observes it: its cleaned data
plus `self.ProductModel._meta.app_label` and
`self.ProductModel.__name__`. -/
structure CatalogLinkForm where
  cleaned_data : CleanedData
  product_app_label : String
  product_model_name : String
  deriving DecidableEq, Repr

/-- `CatalogLinkForm.clean_product()`.  The `pk` entry is the Python
expression `self.cleaned_data['product'] and self.cleaned_data['product'].pk
or None`: a model instance is always truthy and `None` is falsy, so the
`and` yields the product's `pk` exactly when a product is selected; an
`int` is falsy exactly when it is `0`, so the `or` turns a zero `pk`
into `None` as well. -/
def CatalogLinkForm.clean_product (f : CatalogLinkForm) : CatalogLinkForm :=
  if f.cleaned_data.link_type = some "product" then
    let pk : Option Nat :=
      match f.cleaned_data.product with
      | some p => if p.pk = 0 then none else some p.pk
      | none => none
    let ld : LinkData :=
      { type := "product",
        model := f.product_app_label ++ "." ++ f.product_model_name,
        pk := pk }
    { f with cleaned_data := { f.cleaned_data with link_data := some ld } }
  else f

/-- The `initial['link']` dict as `set_initial_product` observes it
(`none` = key absent, which raises `KeyError` on subscription). -/
structure InitialLink where
  model : Option String
  pk : Option Nat
  deriving DecidableEq, Repr

/-- The `initial` dict handed to `CatalogLinkForm.set_initial_product`:
its `'link'` entry and its `'product'` entry. -/
structure InitialDict where
  link : Option InitialLink
  product : Option DbObject
  deriving DecidableEq, Repr

/-- `CatalogLinkForm.set_initial_product(initial)`.  Each missing key
raises `KeyError` and a failed `Model.objects.get` raises
`ObjectDoesNotExist`, in each case before `initial['product']` is
assigned; the `try`/`except` swallows both, leaving `initial`
untouched. -/
def CatalogLinkForm.set_initial_product (db : Database)
    (initial : InitialDict) : InitialDict :=
  match initial.link with
  | none => initial
  | some l =>
    match l.model with
    | none => initial
    | some m =>
      match l.pk with
      | none => initial
      | some pk =>
        match db.lookup m pk with
        | none => initial
        | some obj => { initial with product := some obj }

/-! Concrete sample inputs, used by the closed witness theorems below. -/

/-- A sample CMS page row. -/
def exPage : DbObject :=
  { pk := 7, get_absolute_url := "/checkout/" }

/-- A sample database holding the page `cms.Page` with pk 7. -/
def exDb : Database :=
  { rows := [(("cms.Page", 7), exPage)] }

/-- An empty database. -/
def exDbEmpty : Database :=
  { rows := [] }

/-- A fresh plugin instance whose glossary links to the sample page. -/
def exCmsObj : LinkObj :=
  { glossary :=
      { link := some { type := some "cmspage", model := some "cms.Page", pk := some 7 },
        link_content := some "Proceed" },
    link_model := none }

/-- A fresh plugin instance whose `cmspage` link lacks the `pk` key. -/
def exCmsObjNoPk : LinkObj :=
  { glossary :=
      { link := some { type := some "cmspage", model := some "cms.Page", pk := none },
        link_content := none },
    link_model := none }

/-- A sample import environment mapping every dotted path to a form class
named after it. -/
def exImportEnv : ImportEnv :=
  { import_by_path := fun _ => { form_name := "address_form" } }

/-- A sample well-configured dialog plugin class. -/
def exGoodPluginClass : PluginClass :=
  { name := "CheckoutAddressPlugin",
    is_dialog_form_subclass := true,
    form_class := some "shop.forms.checkout.AddressForm",
    get_form_data := fun _ => { instance_arg := some "address", initial := none },
    template_leaf_name := "address.html" }

/-- A sample class that does not inherit from `DialogFormPluginBase`. -/
def exForeignPluginClass : PluginClass :=
  { name := "TextPlugin",
    is_dialog_form_subclass := false,
    form_class := none,
    get_form_data := fun _ => { instance_arg := none, initial := none },
    template_leaf_name := "text.html" }

/-- A sample template context with a fresh request and no forms yet. -/
def exContext : Context :=
  { request := { plugin_order := none }, forms := [] }

/-- A sample plugin model instance. -/
def exInstance : PluginInstance :=
  { id := 42 }

/-- A sample initialized dialog plugin. -/
def exDialogPlugin : DialogPlugin :=
  { FormClass := { form_name := "address_form" },
    get_form_data := fun _ =>
      { instance_arg := none,
        initial := some (InitialVal.dict
          { plugin_id := some 999, plugin_order := some 999,
            other := [("priority", "high")] }) },
    template_leaf_name := "address.html" }

/-- A sample template environment where only the fallback template
exists. -/
def exTemplateEnv : TemplateEnv :=
  { existing := ["shop/checkout/address.html"] }

/-- A product whose primary key is 0: its `pk` is falsy in Python. -/
def exProductPk0 : DbObject :=
  { pk := 0, get_absolute_url := "/product-zero/" }

/-- A catalog link form whose selected product has primary key 0. -/
def exFormPk0 : CatalogLinkForm :=
  { cleaned_data :=
      { link_type := some "product", product := some exProductPk0, link_data := none },
    product_app_label := "myshop",
    product_model_name := "Product" }

/-- A catalog link form whose selected product has primary key 5. -/
def exFormPk5 : CatalogLinkForm :=
  { cleaned_data :=
      { link_type := some "product",
        product := some { pk := 5, get_absolute_url := "/product-five/" },
        link_data := none },
    product_app_label := "myshop",
    product_model_name := "Product" }

/-- A sample initial dict pointing at the sample page. -/
def exInitialDict : InitialDict :=
  { link := some { model := some "cms.Page", pk := some 7 }, product := none }

/-! Helper lemmas. -/

/-- Looking up the key just assigned returns the assigned value. -/
theorem dictGet_dictSet_self {α : Type} (l : List (String × α)) (k : String)
    (v : α) : dictGet (dictSet l k v) k = some v := by
  induction l with
  | nil => simp [dictSet, dictGet]
  | cons hd t ih =>
    rcases hd with ⟨k', v'⟩
    by_cases h : k' = k
    · simp [dictSet, h, dictGet]
    · simp [dictSet, h, dictGet, ih]

/-! Claim theorems. -/

/-- C1: `DialogFormPluginBase.register_plugin(P)` adds `P` to the CMS
plugin pool if and only if `P` is a subclass of `DialogFormPluginBase`
and `P.get_form_class()` is not `None`; in every other case it raises
`ImproperlyConfigured` and leaves the pool unchanged, and the subclass
check is performed before the form-class check (a class failing both
checks gets the subclass error). -/
theorem register_plugin_adds_iff_valid (pool : List PluginClass)
    (p : PluginClass) :
    (DialogFormPluginBase.register_plugin pool p = (pool ++ [p], none) ↔
      p.is_dialog_form_subclass = true ∧
        DialogFormPluginBase.get_form_class p ≠ none) ∧
    ((∃ msg, DialogFormPluginBase.register_plugin pool p = (pool, some msg)) ↔
      ¬(p.is_dialog_form_subclass = true ∧
        DialogFormPluginBase.get_form_class p ≠ none)) ∧
    (p.is_dialog_form_subclass = true ∨
      DialogFormPluginBase.register_plugin pool p =
        (pool, some (DialogFormPluginBase.subclass_error_msg p))) := by
  cases hb : p.is_dialog_form_subclass with
  | false =>
    refine ⟨?_, ?_, Or.inr ?_⟩ <;>
      simp [DialogFormPluginBase.register_plugin, hb]
  | true =>
    cases hf : p.form_class with
    | none =>
      refine ⟨?_, ?_, Or.inl rfl⟩ <;>
        simp [DialogFormPluginBase.register_plugin, hb,
          DialogFormPluginBase.get_form_class, hf]
    | some s =>
      refine ⟨?_, ?_, Or.inl rfl⟩ <;>
        simp [DialogFormPluginBase.register_plugin, hb,
          DialogFormPluginBase.get_form_class, hf]

/-- C1 witness: registering a well-configured class appends it to an
empty pool with no error. -/
theorem register_plugin_adds_iff_valid_witness :
    DialogFormPluginBase.register_plugin [] exGoodPluginClass =
      ([exGoodPluginClass], none) :=
  (register_plugin_adds_iff_valid [] exGoodPluginClass).1.mpr
    ⟨rfl, by simp [exGoodPluginClass, DialogFormPluginBase.get_form_class]⟩

/-- C2: for a fresh plugin instance, `ShopLinkPluginBase.get_link(obj)`
resolves by link type: a `cmspage` link carrying `model` and `pk` keys
that reference an existing database object yields that object's
`get_absolute_url()`, while any other link type (including an absent
one) is returned verbatim as a special action keyword. -/
theorem get_link_resolves_link_by_type (db : Database) (obj : LinkObj)
    (hfresh : obj.link_model = none) :
    (∀ m pk o,
        (obj.glossary.link.getD LinkDict.empty).type = some "cmspage" →
        (obj.glossary.link.getD LinkDict.empty).model = some m →
        (obj.glossary.link.getD LinkDict.empty).pk = some pk →
        db.lookup m pk = some o →
        (ShopLinkPluginBase.get_link db obj).1 = some o.get_absolute_url) ∧
    ((obj.glossary.link.getD LinkDict.empty).type ≠ some "cmspage" →
        (ShopLinkPluginBase.get_link db obj).1 =
          (obj.glossary.link.getD LinkDict.empty).type) := by
  constructor
  · intro m pk o ht hm hp hl
    simp [ShopLinkPluginBase.get_link, ht, hm, hp, hfresh, hl]
  · intro ht
    simp [ShopLinkPluginBase.get_link, ht]

/-- C2 witness: the sample `cmspage` link resolves to the sample page's
absolute URL. -/
theorem get_link_resolves_link_by_type_witness :
    (ShopLinkPluginBase.get_link exDb exCmsObj).1 = some "/checkout/" :=
  (get_link_resolves_link_by_type exDb exCmsObj rfl).1 "cms.Page" 7 exPage
    rfl rfl rfl (by decide)

/-- C3: construction imports the dotted path returned by
`get_form_class()` and stores the resulting class on the instance;
`render` then instantiates exactly that class with the data returned by
`get_form_data(request)` and stores the bound form in the context under
the key given by the form's `form_name` attribute. -/
theorem dialog_plugin_import_and_bind (env : ImportEnv) (cls : PluginClass)
    (ctx : Context) (inst : PluginInstance) (path : String)
    (hpath : cls.form_class = some path) :
    ∃ p, DialogFormPluginBase.init env cls = some p ∧
      p.FormClass = env.import_by_path path ∧
      ∃ bf, dictGet (DialogFormPluginBase.render p ctx inst).forms
              (env.import_by_path path).form_name = some bf ∧
        bf.form_class = env.import_by_path path ∧
        bf.data.instance_arg = (cls.get_form_data ctx.request).instance_arg := by
  refine ⟨{ FormClass := env.import_by_path path,
            get_form_data := cls.get_form_data,
            template_leaf_name := cls.template_leaf_name }, ?_, rfl, ?_⟩
  · simp [DialogFormPluginBase.init, DialogFormPluginBase.get_form_class, hpath]
  · exact ⟨_, dictGet_dictSet_self ctx.forms _ _, rfl, rfl⟩

/-- C3 witness: initializing the sample plugin class against the
sample import environment and rendering it binds the imported form
class into the context under its form name. -/
theorem dialog_plugin_import_and_bind_witness :
    ∃ p, DialogFormPluginBase.init exImportEnv exGoodPluginClass = some p ∧
      p.FormClass = exImportEnv.import_by_path "shop.forms.checkout.AddressForm" ∧
      ∃ bf, dictGet (DialogFormPluginBase.render p exContext exInstance).forms
              (exImportEnv.import_by_path "shop.forms.checkout.AddressForm").form_name
                = some bf ∧
        bf.form_class = exImportEnv.import_by_path "shop.forms.checkout.AddressForm" ∧
        bf.data.instance_arg =
          (exGoodPluginClass.get_form_data exContext.request).instance_arg :=
  dialog_plugin_import_and_bind exImportEnv exGoodPluginClass exContext
    exInstance "shop.forms.checkout.AddressForm" rfl

/-- C4: each call to `render` bumps `request._plugin_order` by exactly
one (starting from 0 when the attribute is absent), and the bound form's
initial data carries `plugin_id = instance.id` and `plugin_order` equal
to the bumped counter, overriding whatever `get_form_data` supplied for
those two keys. -/
theorem render_plugin_order_and_initial (p : DialogPlugin) (ctx : Context)
    (inst : PluginInstance) :
    (DialogFormPluginBase.render p ctx inst).request.plugin_order =
      some (ctx.request.plugin_order.getD 0 + 1) ∧
    ∃ bf, dictGet (DialogFormPluginBase.render p ctx inst).forms
            p.FormClass.form_name = some bf ∧
      ∃ d, bf.data.initial = some (InitialVal.dict d) ∧
        d.plugin_id = some inst.id ∧
        d.plugin_order = some (ctx.request.plugin_order.getD 0 + 1) := by
  refine ⟨rfl, ?_⟩
  exact ⟨_, dictGet_dictSet_self ctx.forms _ _, _, rfl, rfl, rfl⟩

/-- C4 witness: rendering the sample plugin against a fresh request sets
the counter to 1 and overrides the `plugin_id`/`plugin_order` values
that `get_form_data` supplied. -/
theorem render_plugin_order_and_initial_witness :
    (DialogFormPluginBase.render exDialogPlugin exContext exInstance).request.plugin_order
        = some (exContext.request.plugin_order.getD 0 + 1) ∧
    ∃ bf, dictGet
        (DialogFormPluginBase.render exDialogPlugin exContext exInstance).forms
        exDialogPlugin.FormClass.form_name = some bf ∧
      ∃ d, bf.data.initial = some (InitialVal.dict d) ∧
        d.plugin_id = some exInstance.id ∧
        d.plugin_order = some (exContext.request.plugin_order.getD 0 + 1) :=
  render_plugin_order_and_initial exDialogPlugin exContext exInstance

/-- C5: `get_render_template` tries exactly two candidate names in
order: first the one built from the shop settings' `APP_LABEL`, then the
fallback under `shop/checkout/`. -/
theorem get_render_template_candidates (tenv : TemplateEnv)
    (app_label : String) (p : DialogPlugin) :
    DialogFormPluginBase.get_render_template tenv app_label p =
      (if app_label ++ "/checkout/" ++ p.template_leaf_name ∈ tenv.existing then
        some (app_label ++ "/checkout/" ++ p.template_leaf_name)
      else if "shop/checkout/" ++ p.template_leaf_name ∈ tenv.existing then
        some ("shop/checkout/" ++ p.template_leaf_name)
      else none) := by
  simp [DialogFormPluginBase.get_render_template, select_template]

/-- C5 witness: with only the fallback template on disk, the sample
plugin under `APP_LABEL = "myshop"` selects the fallback name. -/
theorem get_render_template_candidates_witness :
    DialogFormPluginBase.get_render_template exTemplateEnv "myshop" exDialogPlugin
      = (if "myshop" ++ "/checkout/" ++ exDialogPlugin.template_leaf_name
            ∈ exTemplateEnv.existing then
          some ("myshop" ++ "/checkout/" ++ exDialogPlugin.template_leaf_name)
        else if "shop/checkout/" ++ exDialogPlugin.template_leaf_name
            ∈ exTemplateEnv.existing then
          some ("shop/checkout/" ++ exDialogPlugin.template_leaf_name)
        else none) :=
  get_render_template_candidates exTemplateEnv "myshop" exDialogPlugin

/-- C6 counterexample: a form whose selected product has primary key 0
refutes the claim that `link_data['pk']` equals the selected product's
pk — the Python expression `product and product.pk or None` collapses a
falsy (zero) pk to `None` even though a product is selected. -/
theorem clean_product_pk_zero_counterexample :
    exFormPk0.cleaned_data.link_type = some "product" ∧
    exFormPk0.cleaned_data.product = some exProductPk0 ∧
    exProductPk0.pk = 0 ∧
    (CatalogLinkForm.clean_product exFormPk0).cleaned_data.link_data =
      some { type := "product", model := "myshop.Product", pk := none } ∧
    ((CatalogLinkForm.clean_product exFormPk0).cleaned_data.link_data.map
        LinkData.pk) ≠ some (some exProductPk0.pk) := by
  decide

/-- C6 (amended): when the cleaned `link_type` is `product`,
`clean_product` stores a `link_data` dict with type `product`, model
`<app_label>.<ProductModelClassName>`, and pk equal to the selected
product's pk when that pk is truthy (nonzero), and `None` when no
product is selected or the selected product's pk is zero; when
`link_type` is not `product`, the form is left unchanged. -/
theorem clean_product_amended (f : CatalogLinkForm) :
    (CatalogLinkForm.clean_product f).cleaned_data.link_type =
      f.cleaned_data.link_type ∧
    (CatalogLinkForm.clean_product f).cleaned_data.product =
      f.cleaned_data.product ∧
    (if f.cleaned_data.link_type = some "product" then
      ∃ ld, (CatalogLinkForm.clean_product f).cleaned_data.link_data = some ld ∧
        ld.type = "product" ∧
        ld.model = f.product_app_label ++ "." ++ f.product_model_name ∧
        ld.pk = (match f.cleaned_data.product with
                 | some p => if p.pk = 0 then none else some p.pk
                 | none => none)
    else CatalogLinkForm.clean_product f = f) := by
  by_cases h : f.cleaned_data.link_type = some "product" <;>
    simp [CatalogLinkForm.clean_product, h]

/-- C6 witness: a selected product with pk 5 yields `link_data` with
model `myshop.Product` and pk 5. -/
theorem clean_product_amended_witness :
    (CatalogLinkForm.clean_product exFormPk5).cleaned_data.link_type =
      exFormPk5.cleaned_data.link_type ∧
    (CatalogLinkForm.clean_product exFormPk5).cleaned_data.product =
      exFormPk5.cleaned_data.product ∧
    (if exFormPk5.cleaned_data.link_type = some "product" then
      ∃ ld, (CatalogLinkForm.clean_product exFormPk5).cleaned_data.link_data
          = some ld ∧
        ld.type = "product" ∧
        ld.model = exFormPk5.product_app_label ++ "." ++
          exFormPk5.product_model_name ∧
        ld.pk = (match exFormPk5.cleaned_data.product with
                 | some p => if p.pk = 0 then none else some p.pk
                 | none => none)
    else CatalogLinkForm.clean_product exFormPk5 = exFormPk5) :=
  clean_product_amended exFormPk5

/-- C7: `get_link` and `get_identifier` leave the glossary exactly as it
was (the only attribute `get_link` writes is the private memo
`_link_model`), and `get_identifier` reads its result exclusively from
the glossary: two instances with equal glossaries get equal
identifiers. -/
theorem get_link_get_identifier_glossary_frame (db : Database)
    (obj obj2 : LinkObj) :
    (ShopLinkPluginBase.get_link db obj).2.glossary = obj.glossary ∧
    (obj.glossary = obj2.glossary →
      ShopButtonPluginBase.get_identifier obj =
        ShopButtonPluginBase.get_identifier obj2) := by
  constructor
  · unfold ShopLinkPluginBase.get_link
    dsimp only
    repeat' split
    all_goals rfl
  · intro h
    simp [ShopButtonPluginBase.get_identifier, h]

/-- C7 witness: resolving the sample link leaves its glossary untouched,
and an instance sharing that glossary has the same identifier. -/
theorem get_link_get_identifier_glossary_frame_witness :
    (ShopLinkPluginBase.get_link exDb exCmsObj).2.glossary =
      exCmsObj.glossary ∧
    ShopButtonPluginBase.get_identifier exCmsObj =
      ShopButtonPluginBase.get_identifier
        { glossary := exCmsObj.glossary, link_model := some none } :=
  ⟨(get_link_get_identifier_glossary_frame exDb exCmsObj exCmsObj).1,
    (get_link_get_identifier_glossary_frame exDb exCmsObj
      { glossary := exCmsObj.glossary, link_model := some none }).2 rfl⟩

/-- C8: a fresh instance whose `cmspage` link misses the `model` key or
the `pk` key, or whose referenced object is not in the database, gets
`None` from `get_link` (and the total embedding shows no exception
escapes: `Model.DoesNotExist` is caught inside). -/
theorem get_link_missing_or_absent_none (db : Database) (obj : LinkObj)
    (hfresh : obj.link_model = none)
    (ht : (obj.glossary.link.getD LinkDict.empty).type = some "cmspage")
    (hmiss : ((obj.glossary.link.getD LinkDict.empty).model.bind
        (fun m => (obj.glossary.link.getD LinkDict.empty).pk.bind
          (fun pk => db.lookup m pk))) = none) :
    (ShopLinkPluginBase.get_link db obj).1 = none := by
  cases hm : (obj.glossary.link.getD LinkDict.empty).model with
  | none => simp [ShopLinkPluginBase.get_link, ht, hm]
  | some m =>
    cases hp : (obj.glossary.link.getD LinkDict.empty).pk with
    | none => simp [ShopLinkPluginBase.get_link, ht, hm, hp]
    | some pk =>
      simp only [hm, hp, Option.some_bind] at hmiss
      simp [ShopLinkPluginBase.get_link, ht, hm, hp, hfresh, hmiss]

/-- C8 witness: a `cmspage` link without a `pk` key yields `None`. -/
theorem get_link_missing_or_absent_none_witness :
    (ShopLinkPluginBase.get_link exDb exCmsObjNoPk).1 = none :=
  get_link_missing_or_absent_none exDb exCmsObjNoPk rfl rfl (by decide)

/-- C9: on a fresh instance carrying a `cmspage` link with `model` and
`pk`, the first `get_link` call caches the database lookup (or `None`)
on `obj._link_model`; a second call — against any database, so in
particular without performing a lookup — returns the same value and
leaves the instance unchanged. -/
theorem get_link_caches_and_idempotent (db db2 : Database) (obj : LinkObj)
    (m : String) (pk : Nat)
    (hfresh : obj.link_model = none)
    (ht : (obj.glossary.link.getD LinkDict.empty).type = some "cmspage")
    (hm : (obj.glossary.link.getD LinkDict.empty).model = some m)
    (hp : (obj.glossary.link.getD LinkDict.empty).pk = some pk) :
    (ShopLinkPluginBase.get_link db obj).2.link_model =
      some (db.lookup m pk) ∧
    ShopLinkPluginBase.get_link db2 (ShopLinkPluginBase.get_link db obj).2 =
      ((ShopLinkPluginBase.get_link db obj).1,
        (ShopLinkPluginBase.get_link db obj).2) := by
  cases hl : db.lookup m pk with
  | none =>
    constructor <;> simp [ShopLinkPluginBase.get_link, ht, hm, hp, hfresh, hl]
  | some o =>
    constructor <;> simp [ShopLinkPluginBase.get_link, ht, hm, hp, hfresh, hl]

/-- C9 witness: after resolving the sample link once, a second call
against the empty database returns the same URL and the same cached
instance. -/
theorem get_link_caches_and_idempotent_witness :
    (ShopLinkPluginBase.get_link exDb exCmsObj).2.link_model =
      some (exDb.lookup "cms.Page" 7) ∧
    ShopLinkPluginBase.get_link exDbEmpty
        (ShopLinkPluginBase.get_link exDb exCmsObj).2 =
      ((ShopLinkPluginBase.get_link exDb exCmsObj).1,
        (ShopLinkPluginBase.get_link exDb exCmsObj).2) :=
  get_link_caches_and_idempotent exDb exDbEmpty exCmsObj "cms.Page" 7
    rfl rfl rfl rfl

/-- C10: `set_initial_product` sets `initial['product']` to the object
referenced by `initial['link']['model']` and `initial['link']['pk']`
when those keys are present and the object exists; in every other case
it returns with the initial dict completely unchanged, and in either
case the `'link'` entry is untouched. -/
theorem set_initial_product_spec (db : Database) (initial : InitialDict) :
    (CatalogLinkForm.set_initial_product db initial).link = initial.link ∧
    ((∃ obj,
        (initial.link.bind (fun l => l.model.bind (fun m =>
          l.pk.bind (fun pk => db.lookup m pk)))) = some obj ∧
        CatalogLinkForm.set_initial_product db initial =
          { initial with product := some obj }) ∨
      ((initial.link.bind (fun l => l.model.bind (fun m =>
          l.pk.bind (fun pk => db.lookup m pk)))) = none ∧
        CatalogLinkForm.set_initial_product db initial = initial)) := by
  rcases initial with ⟨link, product⟩
  cases link with
  | none => simp [CatalogLinkForm.set_initial_product]
  | some l =>
    rcases l with ⟨lm, lpk⟩
    cases lm with
    | none => simp [CatalogLinkForm.set_initial_product]
    | some m =>
      cases lpk with
      | none => simp [CatalogLinkForm.set_initial_product]
      | some pk =>
        cases hl : db.lookup m pk with
        | none => simp [CatalogLinkForm.set_initial_product, hl]
        | some obj => simp [CatalogLinkForm.set_initial_product, hl]

/-- C10 witness: the sample initial dict referencing the sample page
gets its `product` entry set to that page and keeps its `link` entry. -/
theorem set_initial_product_spec_witness :
    (CatalogLinkForm.set_initial_product exDb exInitialDict).link =
      exInitialDict.link ∧
    ((∃ obj,
        (exInitialDict.link.bind (fun l => l.model.bind (fun m =>
          l.pk.bind (fun pk => exDb.lookup m pk)))) = some obj ∧
        CatalogLinkForm.set_initial_product exDb exInitialDict =
          { exInitialDict with product := some obj }) ∨
      ((exInitialDict.link.bind (fun l => l.model.bind (fun m =>
          l.pk.bind (fun pk => exDb.lookup m pk)))) = none ∧
        CatalogLinkForm.set_initial_product exDb exInitialDict =
          exInitialDict)) :=
  set_initial_product_spec exDb exInitialDict
